import Mathlib

/-
Verification development for the dtest-controller fault-injection engine.

Shallow embedding of the core modules:
  * `stochastic.py`       — hazard primitives and the Standard Normal (Z) table;
  * `event.py`            — `Event.is_active`, the activation decision;
  * `systemcomponent.py`  — `SystemComponent.checkpoint`, the two-state machine;
  * `scheduler.py`        — fault-name resolution (`Scheduler.get_function`) and
                            the per-tick dispatch of fired events;
  * `sessionconfig.py`    — event-model construction and validation
                            (`get_model_for_event`, `_validate_event_model`).

Modelling conventions:
  * Wall-clock instants are integers (seconds).  The engine compares only
    differences of clock readings, and the design notes state that any
    monotonically-advancing second-resolution source suffices, so an integer
    clock is a faithful idealization of Python's float `time.time()`.
    Each scheduler tick carries one `Env` with the clock reading used for the
    several `time()` calls made during that tick (they differ by microseconds
    in the source, which no claim depends on).
  * Uniform samples from `random.random()` are floats, hence rationals; they
    are modelled as `ℚ`.  The transcendental values computed by the normal
    pdf and the Weibull power are modelled exactly in `ℝ`, which makes the
    two hazards that compare against them classically decidable only; every
    control-flow decision of the engine stays computable.
  * Rational constants are written with `mkRat` / `Rat.divInt` (exact
    integer-pair construction) so that concrete runs reduce inside the kernel.
  * Fallible Python code (exceptions) is embedded with `Except`.  In
    `event.py` the name `SystemConfigFile` is unbound — only `SessionConfig`
    is imported — so line 179 (`SystemConfigFile.EVENT_RAND_FIXED`) raises
    `NameError` whenever it is evaluated; the embedding returns `.error ()`
    at exactly that program point.
-/

/-! ### Constants from `sessionconfig.py` (`SessionConfig` class attributes) -/

def EVENT_AMOD_RECUR : String := "recurring"

def EVENT_AMOD_SINGLE : String := "singular"

def EVENT_PMOD_EXP : String := "exponential"

def EVENT_PMOD_NORM : String := "normal"

def EVENT_PMOD_WEI : String := "weibull"

def EVENT_PMOD_RANDOM : String := "random"

def EVENT_PMOD_DETER : String := "deterministic"

def EVENT_RAND_SLIDE : String := "sliding"

def EVENT_RAND_FIXED : String := "fixed"

/-! ### `stochastic.py` -/

/-- `_Z_TABLE` from `stochastic.py`, verbatim: 107 `(area, z)` cells, the
first three rows in the source's (not fully z-sorted) order.  Decimal float
literals of the source are written as exact rationals (`mkRat n d`). -/
def zTable : List (ℚ × ℚ) :=
  [(mkRat 1 10000, mkRat (-3719) 1000), (mkRat 5 1000, mkRat (-2576) 1000), (mkRat 1 1000, mkRat (-309) 100),
   (mkRat 1 100, mkRat (-2326) 1000), (mkRat 2 100, mkRat (-2054) 1000), (mkRat 25 1000, mkRat (-196) 100),
   (mkRat 3 100, mkRat (-1881) 1000), (mkRat 4 100, mkRat (-1751) 1000), (mkRat 5 100, mkRat (-1645) 1000),
   (mkRat 6 100, mkRat (-1555) 1000), (mkRat 7 100, mkRat (-1476) 1000), (mkRat 8 100, mkRat (-1405) 1000),
   (mkRat 9 100, mkRat (-1341) 1000), (mkRat 10 100, mkRat (-1282) 1000), (mkRat 11 100, mkRat (-1227) 1000),
   (mkRat 12 100, mkRat (-1175) 1000), (mkRat 13 100, mkRat (-1126) 1000), (mkRat 14 100, mkRat (-1080) 1000),
   (mkRat 15 100, mkRat (-1036) 1000), (mkRat 16 100, mkRat (-994) 1000), (mkRat 17 100, mkRat (-954) 1000),
   (mkRat 18 100, mkRat (-915) 1000), (mkRat 19 100, mkRat (-878) 1000), (mkRat 20 100, mkRat (-842) 1000),
   (mkRat 21 100, mkRat (-806) 1000), (mkRat 22 100, mkRat (-772) 1000), (mkRat 23 100, mkRat (-739) 1000),
   (mkRat 24 100, mkRat (-706) 1000), (mkRat 25 100, mkRat (-674) 1000), (mkRat 26 100, mkRat (-643) 1000),
   (mkRat 27 100, mkRat (-613) 1000), (mkRat 28 100, mkRat (-583) 1000), (mkRat 29 100, mkRat (-553) 1000),
   (mkRat 30 100, mkRat (-524) 1000), (mkRat 31 100, mkRat (-496) 1000), (mkRat 32 100, mkRat (-468) 1000),
   (mkRat 33 100, mkRat (-440) 1000), (mkRat 34 100, mkRat (-412) 1000), (mkRat 35 100, mkRat (-385) 1000),
   (mkRat 36 100, mkRat (-358) 1000), (mkRat 37 100, mkRat (-332) 1000), (mkRat 38 100, mkRat (-305) 1000),
   (mkRat 39 100, mkRat (-279) 1000), (mkRat 40 100, mkRat (-253) 1000), (mkRat 41 100, mkRat (-228) 1000),
   (mkRat 42 100, mkRat (-202) 1000), (mkRat 43 100, mkRat (-176) 1000), (mkRat 44 100, mkRat (-151) 1000),
   (mkRat 45 100, mkRat (-126) 1000), (mkRat 46 100, mkRat (-100) 1000), (mkRat 47 100, mkRat (-75) 1000),
   (mkRat 48 100, mkRat (-50) 1000), (mkRat 49 100, mkRat (-25) 1000), (mkRat 50 100, mkRat 0 1000),
   (mkRat 51 100, mkRat 25 1000), (mkRat 52 100, mkRat 50 1000), (mkRat 53 100, mkRat 75 1000),
   (mkRat 54 100, mkRat 100 1000), (mkRat 55 100, mkRat 126 1000), (mkRat 56 100, mkRat 151 1000),
   (mkRat 57 100, mkRat 176 1000), (mkRat 58 100, mkRat 202 1000), (mkRat 59 100, mkRat 228 1000),
   (mkRat 60 100, mkRat 253 1000), (mkRat 61 100, mkRat 279 1000), (mkRat 62 100, mkRat 305 1000),
   (mkRat 63 100, mkRat 332 1000), (mkRat 64 100, mkRat 358 1000), (mkRat 65 100, mkRat 385 1000),
   (mkRat 66 100, mkRat 412 1000), (mkRat 67 100, mkRat 440 1000), (mkRat 68 100, mkRat 468 1000),
   (mkRat 69 100, mkRat 496 1000), (mkRat 70 100, mkRat 524 1000), (mkRat 71 100, mkRat 553 1000),
   (mkRat 72 100, mkRat 583 1000), (mkRat 73 100, mkRat 613 1000), (mkRat 74 100, mkRat 643 1000),
   (mkRat 75 100, mkRat 674 1000), (mkRat 76 100, mkRat 706 1000), (mkRat 77 100, mkRat 739 1000),
   (mkRat 78 100, mkRat 772 1000), (mkRat 79 100, mkRat 806 1000), (mkRat 80 100, mkRat 842 1000),
   (mkRat 81 100, mkRat 878 1000), (mkRat 82 100, mkRat 915 1000), (mkRat 83 100, mkRat 954 1000),
   (mkRat 84 100, mkRat 994 1000), (mkRat 85 100, mkRat 1036 1000), (mkRat 86 100, mkRat 1080 1000),
   (mkRat 87 100, mkRat 1126 1000), (mkRat 88 100, mkRat 1175 1000), (mkRat 89 100, mkRat 1227 1000),
   (mkRat 90 100, mkRat 1282 1000), (mkRat 91 100, mkRat 1341 1000), (mkRat 92 100, mkRat 1405 1000),
   (mkRat 93 100, mkRat 1476 1000), (mkRat 94 100, mkRat 1555 1000), (mkRat 95 100, mkRat 1645 1000),
   (mkRat 96 100, mkRat 1751 1000), (mkRat 97 100, mkRat 1881 1000), (mkRat 975 1000, mkRat 1960 1000),
   (mkRat 98 100, mkRat 2054 1000), (mkRat 99 100, mkRat 2326 1000), (mkRat 999 1000, mkRat 3090 1000),
   (mkRat 9995 10000, mkRat 3290 1000), (mkRat 9999 10000, mkRat 3719 1000)]

/-- `_Z_TABLE_LEN` from `stochastic.py`. -/
def Z_TABLE_LEN : ℤ := 107

/-- `_Z_TABLE[i].z`.  Indices outside the table yield the junk cell `(0, 0)`;
the search below only ever reads indices `0 ≤ i ≤ 106` (and Python's negative
indexing is likewise unreachable there). -/
def zrow (i : ℤ) : ℚ := (zTable.getD i.toNat (0, 0)).2

/-- `_Z_TABLE[i].area` (same indexing convention as `zrow`). -/
def arow (i : ℤ) : ℚ := (zTable.getD i.toNat (0, 0)).1

/-- The `while l <= u` loop of `_z_table_search`, with the loop bounds `l`, `u`
as integers exactly as in the source (so `u` may legitimately reach `-1`).
`/` on `ℤ` is Euclidean division, which agrees with Python's floor
division `//` for the positive divisor 2.  The loop runs on structural fuel: every iteration strictly
shrinks `u - l`, so from the initial range `(0, 105)` at most 106 iterations
can occur and the fuel of 214 supplied by `z_table_search` is never
exhausted (`z_search_aux_some` below proves the in-range case terminates
with a hit well inside this fuel). -/
def z_search_aux (z_in : ℚ) : ℕ → ℤ → ℤ → Option ℚ
  | 0, _, _ => none
  | fuel + 1, l, u =>
    if l ≤ u then
      let m : ℤ := (l + u) / 2
      if zrow m ≤ z_in ∧ z_in < zrow (m + 1) then some (arow m)
      else if z_in < zrow m then z_search_aux z_in fuel l (m - 1)
      else z_search_aux z_in fuel (m + 1) u
    else none

/-- `_z_table_search` from `stochastic.py`: binary search with initial bounds
`l = 0`, `u = _Z_TABLE_LEN - 2`; falls off the loop (returns `None`) when no
bracketing row is found. -/
def z_table_search (z_in : ℚ) : Option ℚ := z_search_aux z_in 214 0 (107 - 2)

/-- `exponential_hazard` from `stochastic.py`: `lambda_ = 1.0 / mttf`, fire
iff the uniform sample is `≤ lambda_`. -/
def exponential_hazard (mttf : ℤ) (u : ℚ) : Bool := decide (u ≤ Rat.divInt 1 mttf)

/-- `_normal_distributed` from `stochastic.py`: the Gaussian pdf
`1/(σ√(2π)) · exp(−(1/2)·((t−μ)/σ)²)`, exactly in `ℝ`. -/
noncomputable def normal_distributed (mu sigma t : ℤ) : ℝ :=
  (1 / (sigma * Real.sqrt (2 * Real.pi))) *
    Real.exp (-(1 / 2) * (((t : ℝ) - mu) / sigma) ^ 2)

open Classical in
/-- `normal_hazard` from `stochastic.py`: look up the cumulative area at
`z = (t − μ)/σ`; if the search returns `None`, report "not fired"; otherwise
fire iff the uniform sample is `≤ f(t) / (1 − F)`. -/
noncomputable def normal_hazard (mu sigma t : ℤ) (u : ℚ) : Bool :=
  match z_table_search (Rat.divInt (t - mu) sigma) with
  | none => false
  | some F => decide ((u : ℝ) ≤ normal_distributed mu sigma t / (1 - (F : ℝ)))

open Classical in
/-- `weibull_hazard` from `stochastic.py`: `p = a · (1/mttf)^a · t^(a−1)`,
fire iff the uniform sample is `≤ p` (real powers via `rpow`). -/
noncomputable def weibull_hazard (a : ℚ) (mttf t : ℤ) (u : ℚ) : Bool :=
  decide ((u : ℝ) ≤ (a : ℝ) * (1 / (mttf : ℝ)) ^ (a : ℝ) * (t : ℝ) ^ ((a : ℝ) - 1))

/-! ### `event.py` -/

/-- The per-event configuration record: the `ModelType` namedtuple built by
`SessionConfig.get_model_for_event` and copied into `Event.__init__`
(field names as in the source).  The opaque user-defined payload fields are
carried as strings (`udd` optional), which no validated field inspects. -/
structure EventConfig where
  fault : String
  state_trans : Bool
  a_model : String
  p_model : String
  mttf : ℤ
  thrld : ℤ
  eff_s : ℤ
  eff_e : ℤ
  sd : ℤ
  shape : ℚ
  r_range : ℤ
  r_w_type : String
  udf1 : String
  udf2 : String
  udf3 : String
  udd : Option String
deriving DecidableEq

/-- The mutable runtime state of an `Event` object: `_executed` plus the
three members used only by the `random` probability model. -/
structure EventState where
  executed : Bool
  random_time : ℤ
  window_end : ℤ
  random_time_set : Bool
deriving DecidableEq

/-- `Event.__init__` runtime-state initialization: `_executed = False`,
`_random_time = 0`, `_window_end = time()` (the construction instant),
`_random_time_set = False`. -/
def initEventState (construction_time : ℤ) : EventState :=
  { executed := false, random_time := 0, window_end := construction_time,
    random_time_set := false }

/-- The environment of one `is_active` call: the wall clock `now` (the
several `time()` reads of one call), the uniform sample `u` the hazard
functions would draw, and the `randint` draw `roff` of the random model. -/
structure Env where
  now : ℤ
  u : ℚ
  roff : ℤ
deriving DecidableEq

/-- `Event.is_singular_event`: the activation model equals
`SessionConfig.EVENT_AMOD_SINGLE`. -/
def is_singular_event (cfg : EventConfig) : Bool := cfg.a_model = EVENT_AMOD_SINGLE

/-- `Event.is_state_transition_event`. -/
def is_state_transition_event (cfg : EventConfig) : Bool := cfg.state_trans

/-- `Event.is_active(alive_time, last_event_time)` from `event.py`.

Returns `.ok (active, st)` with the updated event state, or `.error ()` for
the `NameError` raised at line 179: inside the arming branch of the `random`
model the source evaluates `SystemConfigFile.EVENT_RAND_FIXED`, but
`SystemConfigFile` is not a bound name in `event.py` (only `SessionConfig`
is imported), so the branch raises for both window types after assigning
`_random_time`; the exception propagates to the caller and no state visible
to later logic changes. -/
noncomputable def is_active (cfg : EventConfig) (st : EventState)
    (alive_time last_event_time : ℤ) (env : Env) :
    Except Unit (Bool × EventState) :=
  if st.executed = true ∧ is_singular_event cfg = true then .ok (false, st)
  else
    let elapsed_life := env.now - alive_time
    let elapsed_time := env.now - last_event_time
    if (cfg.eff_s > -1 →
          (cfg.eff_s ≤ elapsed_life ∧ (cfg.eff_e = -1 ∨ elapsed_life ≤ cfg.eff_e))) ∧
        cfg.thrld ≤ elapsed_time then
      if cfg.p_model = EVENT_PMOD_DETER then .ok (true, st)
      else if cfg.p_model = EVENT_PMOD_EXP then
        .ok (exponential_hazard cfg.mttf env.u, st)
      else if cfg.p_model = EVENT_PMOD_NORM then
        .ok (normal_hazard cfg.mttf cfg.sd elapsed_time env.u, st)
      else if cfg.p_model = EVENT_PMOD_WEI then
        .ok (weibull_hazard cfg.shape cfg.mttf elapsed_time env.u, st)
      else if cfg.p_model = EVENT_PMOD_RANDOM then
        if st.random_time_set = false ∧ st.window_end < env.now then
          .error ()
        else if st.random_time_set = true ∧ st.random_time ≤ env.now then
          .ok (true, { st with random_time_set := false })
        else .ok (false, st)
      else .ok (false, st)
    else .ok (false, st)

/-! ### `systemcomponent.py` -/

/-- A `SystemComponent`: state (`OPERABLE = true`), the two event buckets
`_events[OPERABLE]` / `_events[NONOPERABLE]` (each event as its immutable
configuration paired with its mutable state), `_life_start_time` and
`_last_event_time`. -/
structure Comp where
  operable : Bool
  ops : List (EventConfig × EventState)
  nonops : List (EventConfig × EventState)
  life_start_time : ℤ
  last_event_time : ℤ
deriving DecidableEq

/-- `self._events[b]`. -/
def bucketOf (b : Bool) (c : Comp) : List (EventConfig × EventState) :=
  if b then c.ops else c.nonops

/-- The list comprehension of `SystemComponent.checkpoint`: evaluate
`is_active` on each event of the chosen bucket in order, threading each
event's own state update; the comprehension reads `self._last_event_time`
afresh for every element, but nothing inside it writes that member, so the
value passed in stays the pre-tick one.  A `NameError` escaping `is_active`
aborts the whole comprehension (and the scheduler thread). -/
noncomputable def evalBucket (life last : ℤ) (env : Env) :
    List (EventConfig × EventState) →
      Except Unit (List (EventConfig × Bool × EventState))
  | [] => .ok []
  | (cfg, st) :: rest =>
    match is_active cfg st life last env with
    | .error e => .error e
    | .ok (b, st1) =>
      match evalBucket life last env rest with
      | .error e => .error e
      | .ok tail => .ok ((cfg, b, st1) :: tail)

/-- The `for e in active_events` loop of `checkpoint`, per event: fired
events get `set_executed()`; the others keep the state `is_active` left. -/
def commitEvent : EventConfig × Bool × EventState → EventConfig × EventState
  | (cfg, b, st) => (cfg, if b then { st with executed := true } else st)

/-- `SystemComponent.checkpoint`: evaluate the current state's bucket, then,
for each fired event in order, mark it executed, set
`_last_event_time = time()` (the tick's clock reading) and toggle `_state`
if it is a state-transition event.  Returns the fired/not-fired flags of the
evaluated bucket (the source returns the fired `Event` objects; the flags
identify them positionally) together with the updated component. -/
noncomputable def checkpoint (c : Comp) (env : Env) :
    Except Unit (List Bool × Comp) :=
  match evalBucket c.life_start_time c.last_event_time env (bucketOf c.operable c) with
  | .error e => .error e
  | .ok res =>
    .ok (res.map (fun r => r.2.1),
      { operable := res.foldl
          (fun a r => if r.2.1 = true ∧ r.1.state_trans = true then !a else a)
          c.operable,
        ops := if c.operable then res.map commitEvent else c.ops,
        nonops := if c.operable then c.nonops else res.map commitEvent,
        life_start_time := c.life_start_time,
        last_event_time :=
          if (res.map (fun r => r.2.1)).any (fun x => x) then env.now
          else c.last_event_time })

/-- Number of ticks, along a run of `checkpoint` over the tick environments
`envs`, at which the event sitting at index `i` of bucket `b` fires (it can
only fire at ticks where `b` is the component's current state).  A tick
whose checkpoint raises kills the scheduler thread, ending the run. -/
noncomputable def traceFires (b : Bool) (i : ℕ) : Comp → List Env → ℕ
  | _, [] => 0
  | c, env :: rest =>
    match checkpoint c env with
    | .error _ => 0
    | .ok (flags, c1) =>
      (if c.operable = b ∧ flags.getD i false = true then 1 else 0) +
        traceFires b i c1 rest

/-! ### `scheduler.py` -/

/-- A module attribute a fault name can resolve to: a function (callable) or
any non-callable binding. -/
inductive FaultAttr
  | callable (fname : String)
  | notCallable
deriving DecidableEq

/-- The `AttributeError` values arising in `Scheduler.get_function`:
`getattr` on a missing name raises one whose `args[0]` is a message, while
the explicit `raise AttributeError()` for a non-callable binding has empty
`args`. -/
inductive AttrError
  | withMsg (msg : String)
  | noArgs
deriving DecidableEq

/-- What the run loop does with one resolved firing. -/
inductive Dispatch
  | dryRunLogged (fname : String)
  | spawned (fname : String)
deriving DecidableEq

/-- `Scheduler.get_function`: consult `_function_cache` first; on a miss,
`getattr` the fault module (missing name: `AttributeError` with a message),
reject non-callable bindings (`raise AttributeError()`, empty `args`), and
cache the successful resolution. -/
def get_function (mod : List (String × FaultAttr))
    (cache : List (String × String)) (func_name : String) :
    Except AttrError (String × List (String × String)) :=
  match cache.lookup func_name with
  | some f => .ok (f, cache)
  | none =>
    match mod.lookup func_name with
    | none => .error (.withMsg ("module object has no attribute " ++ func_name))
    | some (.callable f) => .ok (f, (func_name, f) :: cache)
    | some .notCallable => .error .noArgs

/-- The per-fired-event body of `Scheduler.run`: resolve the fault name; on
`AttributeError` the handler evaluates `err.args[0]` — fine for the
missing-name error (log at info level, `continue`), but an `IndexError` for
the empty-`args` error of a non-callable binding, which escapes `run` and
kills the scheduler thread (`.error ()`); on success either log the dry run
or spawn a worker thread. -/
def handle_fired_event (dryrun : Bool) (mod : List (String × FaultAttr))
    (cache : List (String × String)) (fault_name : String) :
    Except Unit (Option Dispatch × List (String × String)) :=
  match get_function mod cache fault_name with
  | .error (.withMsg _) => .ok (none, cache)
  | .error .noArgs => .error ()
  | .ok (f, cache1) =>
    .ok (some (if dryrun then .dryRunLogged f else .spawned f), cache1)

/-- The `for e in self._sut.checkpoint()` loop of one tick of
`Scheduler.run`, over the fired events' fault names in order. -/
def process_fired (dryrun : Bool) (mod : List (String × FaultAttr)) :
    List (String × String) → List String →
      Except Unit (List Dispatch × List (String × String))
  | cache, [] => .ok ([], cache)
  | cache, n :: rest =>
    match handle_fired_event dryrun mod cache n with
    | .error e => .error e
    | .ok (d, cache1) =>
      match process_fired dryrun mod cache1 rest with
      | .error e => .error e
      | .ok (ds, cache2) =>
        .ok ((match d with | none => ds | some d0 => d0 :: ds), cache2)

/-! ### `sessionconfig.py` -/

/-- One `<event>` JSON object: each recognized field either present or
absent.  Scalar fields carry their schema types (the dynamic `type(...)`
checks of `_validate_event_model` are statically satisfied here; its value
bound checks are kept below). -/
structure EventJson where
  fault : Option String
  state_transition : Option Bool
  a_model : Option String
  p_model : Option String
  mttf : Option ℤ
  threshold : Option ℤ
  effective_start : Option ℤ
  effective_end : Option ℤ
  standard_deviation : Option ℤ
  shape : Option ℚ
  random_range : Option ℤ
  random_window_type : Option String
  udf1 : Option String
  udf2 : Option String
  udf3 : Option String
  udd : Option String
deriving DecidableEq

/-- The construction half of `SessionConfig.get_model_for_event`: reject a
missing `fault` or `a_model`, then build the `ModelType` namedtuple with the
documented defaults (`p_model` defaults to the empty string, `mttf` to 1,
`threshold` to 0, the effective bounds to −1, `standard_deviation`, `shape`
and `random_range` to 1, `random_window_type` to `fixed`). -/
def build_model (e : EventJson) : Except String EventConfig :=
  match e.fault with
  | none => .error "Missing fault value for event"
  | some fa =>
    match e.a_model with
    | none => .error "Missing a_model value for event"
    | some am =>
      .ok { fault := fa,
            state_trans := e.state_transition.getD false,
            a_model := am,
            p_model := e.p_model.getD "",
            mttf := e.mttf.getD 1,
            thrld := e.threshold.getD 0,
            eff_s := e.effective_start.getD (-1),
            eff_e := e.effective_end.getD (-1),
            sd := e.standard_deviation.getD 1,
            shape := e.shape.getD 1,
            r_range := e.random_range.getD 1,
            r_w_type := e.random_window_type.getD EVENT_RAND_FIXED,
            udf1 := e.udf1.getD "",
            udf2 := e.udf2.getD "",
            udf3 := e.udf3.getD "",
            udd := e.udd }

/-- `SessionConfig._validate_event_model`: the enumeration and bound checks,
in source order, raising `ValueError` (here: an error string) on the first
violation. -/
def validate_event_model (m : EventConfig) : Except String Unit :=
  if ¬(m.a_model = EVENT_AMOD_RECUR ∨ m.a_model = EVENT_AMOD_SINGLE) then
    .error "Invalid a_model value"
  else if ¬(m.p_model = EVENT_PMOD_EXP ∨ m.p_model = EVENT_PMOD_NORM ∨
      m.p_model = EVENT_PMOD_WEI ∨ m.p_model = EVENT_PMOD_RANDOM ∨
      m.p_model = EVENT_PMOD_DETER) then
    .error "Invalid p_model value"
  else if ¬(m.r_w_type = EVENT_RAND_SLIDE ∨ m.r_w_type = EVENT_RAND_FIXED) then
    .error "Invalid random_window_type value"
  else if m.mttf ≤ 0 then .error "Invalid mttf value"
  else if m.thrld < 0 then .error "Invalid threshold value"
  else if m.eff_s < -1 then .error "Invalid effective_start value"
  else if m.eff_e < -1 then .error "Invalid effective_end value"
  else if m.sd ≤ 0 then .error "Invalid standard_deviation value"
  else if m.shape ≤ 0 then .error "Invalid shape value"
  else if m.r_range ≤ 0 then .error "Invalid random_range value"
  else .ok ()

/-- `SessionConfig.get_model_for_event`: build the model, validate it,
return it. -/
def get_model_for_event (e : EventJson) : Except String EventConfig :=
  match build_model e with
  | .error msg => .error msg
  | .ok m =>
    match validate_event_model m with
    | .error msg => .error msg
    | .ok _ => .ok m

/-- Equality of embedded outcomes is decidable (used to evaluate the model
on concrete inputs). -/
instance instDecidableEqExcept {ε α : Type} [DecidableEq ε] [DecidableEq α] :
    DecidableEq (Except ε α) := fun x y =>
  match x, y with
  | .error a, .error b =>
    if h : a = b then isTrue (congrArg Except.error h)
    else isFalse (fun hc => h (Except.error.inj hc))
  | .error _, .ok _ => isFalse (fun hc => Except.noConfusion hc)
  | .ok _, .error _ => isFalse (fun hc => Except.noConfusion hc)
  | .ok a, .ok b =>
    if h : a = b then isTrue (congrArg Except.ok h)
    else isFalse (fun hc => h (Except.ok.inj hc))

/-! ### Concrete instances used to exercise the model -/

/-- A minimal valid configuration: recurring, deterministic, threshold 0, no
effective window. -/
def detCfg : EventConfig :=
  { fault := "f", state_trans := false, a_model := EVENT_AMOD_RECUR,
    p_model := EVENT_PMOD_DETER, mttf := 1, thrld := 0, eff_s := -1,
    eff_e := -1, sd := 1, shape := 1, r_range := 1,
    r_w_type := EVENT_RAND_FIXED, udf1 := "", udf2 := "", udf3 := "",
    udd := none }

/-- `detCfg` with the `singular` activation model. -/
def singCfg : EventConfig := { detCfg with a_model := EVENT_AMOD_SINGLE }

/-- `detCfg` with the `exponential` model and threshold 5. -/
def expThCfg : EventConfig := { detCfg with p_model := EVENT_PMOD_EXP, thrld := 5 }

/-- `detCfg` with the `random` model, threshold 1, range 10, fixed window. -/
def randCfg : EventConfig :=
  { detCfg with p_model := EVENT_PMOD_RANDOM, thrld := 1, r_range := 10 }

/-- A freshly constructed component (at instant 0) owning one operable
event. -/
def sampleComp (cfg : EventConfig) : Comp :=
  { operable := true, ops := [(cfg, initEventState 0)], nonops := [],
    life_start_time := 0, last_event_time := 0 }

/-- A fault module exposing one function and one non-callable attribute. -/
def sampleModule : List (String × FaultAttr) :=
  [("good", .callable "good"), ("bad", .notCallable)]

/-- An otherwise-valid event definition that omits `p_model` (and every
other optional field). -/
def ejNoPModel : EventJson :=
  { fault := some "kill", state_transition := none,
    a_model := some EVENT_AMOD_RECUR, p_model := none, mttf := none,
    threshold := none, effective_start := none, effective_end := none,
    standard_deviation := none, shape := none, random_range := none,
    random_window_type := none, udf1 := none, udf2 := none, udf3 := none,
    udd := none }

/-! ### Properties of the Z-table search -/

/-- Every `z` entry of the shipped table is at most `3.719` (rows inside the
table checked by evaluation; out-of-range reads give the junk cell). -/
lemma zrow_le_top (i : ℤ) : zrow i ≤ mkRat 3719 1000 := by
  unfold zrow
  by_cases h : i.toNat < 107
  · exact (by decide :
      ∀ j : ℕ, j < 107 → (zTable.getD j (0, 0)).2 ≤ mkRat 3719 1000) i.toNat h
  · rw [List.getD_eq_default]
    · decide
    · have hlen : zTable.length = 107 := by decide
      omega

/-- Every `z` entry of the shipped table is at least `−3.719`. -/
lemma zrow_ge_bot (i : ℤ) : mkRat (-3719) 1000 ≤ zrow i := by
  unfold zrow
  by_cases h : i.toNat < 107
  · exact (by decide :
      ∀ j : ℕ, j < 107 → mkRat (-3719) 1000 ≤ (zTable.getD j (0, 0)).2) i.toNat h
  · rw [List.getD_eq_default]
    · decide
    · have hlen : zTable.length = 107 := by decide
      omega

/-- For `z_in` at or above the top tabulated `z = 3.719` the loop never finds
a bracket (`_Z_TABLE[m+1].z > z_in` fails everywhere) and falls off with
`None`, regardless of fuel or bounds. -/
lemma z_search_aux_none_above (z_in : ℚ) (hz : mkRat 3719 1000 ≤ z_in) :
    ∀ (fuel : ℕ) (l u : ℤ), z_search_aux z_in fuel l u = none := by
  intro fuel
  induction fuel with
  | zero => intro l u; rfl
  | succ n ih =>
    intro l u
    by_cases hle : l ≤ u
    · have hm1 : ¬(zrow ((l + u) / 2) ≤ z_in ∧
          z_in < zrow ((l + u) / 2 + 1)) := by
        rintro ⟨-, h2⟩
        exact absurd (lt_of_lt_of_le h2 (zrow_le_top _)) (not_lt.mpr hz)
      have hm2 : ¬(z_in < zrow ((l + u) / 2)) := fun h =>
        absurd (lt_of_lt_of_le h (zrow_le_top _)) (not_lt.mpr hz)
      simp only [z_search_aux, if_pos hle, if_neg hm1, if_neg hm2]
      exact ih _ _
    · simp only [z_search_aux, if_neg hle]

/-- For `z_in` below the bottom tabulated `z = −3.719` the loop always moves
its upper bound down and falls off with `None`. -/
lemma z_search_aux_none_below (z_in : ℚ) (hz : z_in < mkRat (-3719) 1000) :
    ∀ (fuel : ℕ) (l u : ℤ), z_search_aux z_in fuel l u = none := by
  intro fuel
  induction fuel with
  | zero => intro l u; rfl
  | succ n ih =>
    intro l u
    by_cases hle : l ≤ u
    · have hm1 : ¬(zrow ((l + u) / 2) ≤ z_in ∧
          z_in < zrow ((l + u) / 2 + 1)) := by
        rintro ⟨h1, -⟩
        exact absurd (lt_of_le_of_lt (zrow_ge_bot _) (h1.trans_lt hz)) (lt_irrefl _)
      have hm2 : z_in < zrow ((l + u) / 2) :=
        hz.trans_le (zrow_ge_bot _)
      simp only [z_search_aux, if_pos hle, if_neg hm1, if_pos hm2]
      exact ih _ _
    · simp only [z_search_aux, if_neg hle]

/-- Soundness of the loop: whatever it returns is the area of a row `m`
inside the current bounds whose `z` brackets `z_in` from below
(`z_m ≤ z_in < z_{m+1}`). -/
lemma z_search_aux_sound (z_in : ℚ) :
    ∀ (fuel : ℕ) (l u : ℤ) (a : ℚ), z_search_aux z_in fuel l u = some a →
      ∃ m : ℤ, l ≤ m ∧ m ≤ u ∧ zrow m ≤ z_in ∧ z_in < zrow (m + 1) ∧ a = arow m := by
  intro fuel
  induction fuel with
  | zero => intro l u a h; exact absurd h (by simp [z_search_aux])
  | succ n ih =>
    intro l u a h
    by_cases hle : l ≤ u
    · simp only [z_search_aux, if_pos hle] at h
      have hml : l ≤ (l + u) / 2 := by omega
      have hmu : (l + u) / 2 ≤ u := by omega
      by_cases hbr : zrow ((l + u) / 2) ≤ z_in ∧
          z_in < zrow ((l + u) / 2 + 1)
      · rw [if_pos hbr] at h
        exact ⟨(l + u) / 2, hml, hmu, hbr.1, hbr.2, (Option.some_inj.mp h).symm⟩
      · rw [if_neg hbr] at h
        by_cases hlt : z_in < zrow ((l + u) / 2)
        · rw [if_pos hlt] at h
          obtain ⟨m, hm1, hm2, hm3, hm4, hm5⟩ := ih l ((l + u) / 2 - 1) a h
          exact ⟨m, hm1, by omega, hm3, hm4, hm5⟩
        · rw [if_neg hlt] at h
          obtain ⟨m, hm1, hm2, hm3, hm4, hm5⟩ := ih ((l + u) / 2 + 1) u a h
          exact ⟨m, by omega, hm2, hm3, hm4, hm5⟩
    · simp [z_search_aux, if_neg hle] at h

/-- Completeness of the loop, with no sortedness assumption: if the lower
bound's `z` is `≤ z_in` and the slot one past the upper bound has `z > z_in`,
the loop returns a hit before the fuel runs out.  (Both invariants are
preserved by each step of the source's search, sorted table or not.) -/
lemma z_search_aux_some (z_in : ℚ) :
    ∀ (fuel : ℕ) (l u : ℤ), (u + 1 - l).toNat < fuel → l ≤ u + 1 →
      zrow l ≤ z_in → z_in < zrow (u + 1) →
      ∃ a, z_search_aux z_in fuel l u = some a := by
  intro fuel
  induction fuel with
  | zero => intro l u hf; omega
  | succ n ih =>
    intro l u hf hlu hlo hhi
    by_cases hle : l ≤ u
    · have hml : l ≤ (l + u) / 2 := by omega
      have hmu : (l + u) / 2 ≤ u := by omega
      by_cases hbr : zrow ((l + u) / 2) ≤ z_in ∧
          z_in < zrow ((l + u) / 2 + 1)
      · exact ⟨arow ((l + u) / 2), by
          simp only [z_search_aux, if_pos hle, if_pos hbr]⟩
      · by_cases hlt : z_in < zrow ((l + u) / 2)
        · obtain ⟨a, ha⟩ := ih l ((l + u) / 2 - 1) (by omega) (by omega) hlo
            (by rw [show (l + u) / 2 - 1 + 1 = (l + u) / 2 by ring]
                exact hlt)
          exact ⟨a, by simp only [z_search_aux, if_pos hle, if_neg hbr, if_pos hlt]
                       exact ha⟩
        · have hge : zrow ((l + u) / 2) ≤ z_in := not_lt.mp hlt
          have hnext : zrow ((l + u) / 2 + 1) ≤ z_in := by
            by_contra hc
            exact hbr ⟨hge, not_le.mp hc⟩
          obtain ⟨a, ha⟩ := ih ((l + u) / 2 + 1) u (by omega) (by omega) hnext hhi
          exact ⟨a, by simp only [z_search_aux, if_pos hle, if_neg hbr, if_neg hlt]
                       exact ha⟩
    · have hdeg : l = u + 1 := by omega
      subst hdeg
      exact absurd (lt_of_le_of_lt hlo hhi) (lt_irrefl _)

/-- `z_table_search` is `None` at or above the top tabulated `z`. -/
lemma z_table_search_none_above (z_in : ℚ) (hz : mkRat 3719 1000 ≤ z_in) :
    z_table_search z_in = none :=
  z_search_aux_none_above z_in hz 214 0 (107 - 2)

/-- `z_table_search` is `None` below the bottom tabulated `z`. -/
lemma z_table_search_none_below (z_in : ℚ) (hz : z_in < mkRat (-3719) 1000) :
    z_table_search z_in = none :=
  z_search_aux_none_below z_in hz 214 0 (107 - 2)

/-- `z_table_search` returning an area exhibits a bracketing row of the
107-entry table. -/
lemma z_table_search_sound (z_in : ℚ) (a : ℚ) (h : z_table_search z_in = some a) :
    ∃ m : ℤ, 0 ≤ m ∧ m ≤ 105 ∧ zrow m ≤ z_in ∧ z_in < zrow (m + 1) ∧ a = arow m := by
  obtain ⟨m, hm0, hm1, hm2, hm3, hm4⟩ := z_search_aux_sound z_in 214 0 (107 - 2) a h
  exact ⟨m, hm0, by omega, hm2, hm3, hm4⟩

/-- `z_table_search` returns an area for every `z_in` in `[−3.719, 3.719)`. -/
lemma z_table_search_some (z_in : ℚ) (hlo : mkRat (-3719) 1000 ≤ z_in)
    (hhi : z_in < mkRat 3719 1000) : ∃ a, z_table_search z_in = some a := by
  apply z_search_aux_some z_in 214 0 (107 - 2) (by decide) (by decide)
  · rw [(by decide : zrow 0 = mkRat (-3719) 1000)]
    exact hlo
  · rw [(by decide : zrow (107 - 2 + 1) = mkRat 3719 1000)]
    exact hhi

/-- C6 (amended).  For every `z_in` in `[−3.719, 3.719)`, `_z_table_search`
returns the area of a table row `m` with `z_m ≤ z_in < z_{m+1}` — a
bracketed lower bound, though (rows 1–2 of the shipped table being out of
z-order) not always the greatest row whose `z ≤ z_in`; for `z_in` below the
smallest tabulated z, and likewise at or above the largest, it returns no
area and `normal_hazard` reports not fired; when the search returns an
area `F`, `normal_hazard` fires iff the uniform sample is `≤ f(t)/(1 − F)`. -/
theorem z_table_search_bracketed :
    (∀ z_in : ℚ, mkRat (-3719) 1000 ≤ z_in → z_in < mkRat 3719 1000 →
      ∃ (m : ℤ) (a : ℚ), z_table_search z_in = some a ∧ 0 ≤ m ∧ m ≤ 105 ∧
        zrow m ≤ z_in ∧ z_in < zrow (m + 1) ∧ a = arow m) ∧
    (∀ z_in : ℚ, z_in < mkRat (-3719) 1000 → z_table_search z_in = none) ∧
    (∀ z_in : ℚ, mkRat 3719 1000 ≤ z_in → z_table_search z_in = none) ∧
    (∀ (mu sigma t : ℤ) (u : ℚ),
      z_table_search (Rat.divInt (t - mu) sigma) = none →
        normal_hazard mu sigma t u = false) ∧
    (∀ (mu sigma t : ℤ) (u F : ℚ),
      z_table_search (Rat.divInt (t - mu) sigma) = some F →
        (normal_hazard mu sigma t u = true ↔
          (u : ℝ) ≤ normal_distributed mu sigma t / (1 - (F : ℝ)))) := by
  refine ⟨?_, z_table_search_none_below, z_table_search_none_above, ?_, ?_⟩
  · intro z_in hlo hhi
    obtain ⟨a, ha⟩ := z_table_search_some z_in hlo hhi
    obtain ⟨m, hm0, hm1, hm2, hm3, hm4⟩ := z_table_search_sound z_in a ha
    exact ⟨m, a, ha, hm0, hm1, hm2, hm3, hm4⟩
  · intro mu sigma t u h
    unfold normal_hazard
    rw [h]
  · intro mu sigma t u F h
    unfold normal_hazard
    rw [h]
    exact decide_eq_true_iff

/-- Witness for C6 at concrete inputs: `z_in = 0` lies in range and is
bracketed; `z_in = 4` is searched in vain; at `μ = 0`, `σ = 1`, `t = 0` the
search yields `F = 0.5` and the hazard comparison is exactly the
`f/(1 − F)` test. -/
theorem z_table_search_bracketed_witness :
    (∃ (m : ℤ) (a : ℚ), z_table_search 0 = some a ∧ 0 ≤ m ∧ m ≤ 105 ∧
      zrow m ≤ 0 ∧ (0 : ℚ) < zrow (m + 1) ∧ a = arow m) ∧
    z_table_search (mkRat 4 1) = none ∧
    (normal_hazard 0 1 0 0 = true ↔
      ((0 : ℚ) : ℝ) ≤ normal_distributed 0 1 0 / (1 - ((mkRat 1 2 : ℚ) : ℝ))) :=
  ⟨z_table_search_bracketed.1 0 (by decide) (by decide),
   z_table_search_bracketed.2.2.1 (mkRat 4 1) (by decide),
   z_table_search_bracketed.2.2.2.2 0 1 0 0 (mkRat 1 2) (by decide)⟩

/-- Counterexample to C6 as stated.  At `z_in = 4` (which is `≥ −3.719`) the
search returns `None` rather than the greatest row's area, and at
`z_in = −2.5` it returns area `0.001` although the greatest table row whose
`z ≤ −2.5` is row 1 (`z = −2.576`) with area `0.005`. -/
theorem z_table_search_greatest_row_cex :
    mkRat (-3719) 1000 ≤ mkRat 4 1 ∧
    z_table_search (mkRat 4 1) = none ∧
    z_table_search (mkRat (-5) 2) = some (mkRat 1 1000) ∧
    zrow 1 = mkRat (-2576) 1000 ∧ arow 1 = mkRat 5 1000 ∧
    zrow 1 ≤ mkRat (-5) 2 ∧
    (∀ j : ℕ, j < 107 → (zTable.getD j (0, 0)).2 ≤ mkRat (-5) 2 →
      (zTable.getD j (0, 0)).2 ≤ zrow 1) ∧
    mkRat 1 1000 ≠ mkRat 5 1000 := by decide

/-- C10.  Once `z = (t − μ)/σ` reaches the largest tabulated value `3.719`
the search finds no bracketing row (the strict `z_{m+1} > z_in` test fails
everywhere) and returns `None`, so `normal_hazard` returns false: a
normal-model event can never fire once its elapsed time reaches
`μ + 3.719·σ`, the mirror image at the top of the table of the documented
lower-end cutoff. -/
theorem normal_upper_cutoff :
    (∀ z_in : ℚ, mkRat 3719 1000 ≤ z_in → z_table_search z_in = none) ∧
    (∀ (mu sigma t : ℤ) (u : ℚ), 0 < mu → 0 < sigma →
      mkRat 3719 1000 ≤ Rat.divInt (t - mu) sigma →
        normal_hazard mu sigma t u = false) ∧
    (∀ (cfg : EventConfig) (st : EventState) (alive last : ℤ) (env : Env),
      cfg.p_model = EVENT_PMOD_NORM → 0 < cfg.mttf → 0 < cfg.sd →
      mkRat 3719 1000 ≤ Rat.divInt (env.now - last - cfg.mttf) cfg.sd →
        is_active cfg st alive last env = .ok (false, st)) := by
  have hhaz : ∀ (mu sigma t : ℤ) (u : ℚ),
      mkRat 3719 1000 ≤ Rat.divInt (t - mu) sigma →
        normal_hazard mu sigma t u = false := by
    intro mu sigma t u hz
    unfold normal_hazard
    rw [z_table_search_none_above _ hz]
  refine ⟨z_table_search_none_above, fun mu sigma t u _ _ hz => hhaz mu sigma t u hz, ?_⟩
  intro cfg st alive last env hp _ _ hz
  unfold is_active
  by_cases h1 : st.executed = true ∧ is_singular_event cfg = true
  · rw [if_pos h1]
  · rw [if_neg h1]
    by_cases h2 : (cfg.eff_s > -1 →
        (cfg.eff_s ≤ env.now - alive ∧
          (cfg.eff_e = -1 ∨ env.now - alive ≤ cfg.eff_e))) ∧
        cfg.thrld ≤ env.now - last
    · rw [if_pos h2, if_neg (by rw [hp]; decide), if_neg (by rw [hp]; decide),
        if_pos hp, hhaz cfg.mttf cfg.sd (env.now - last) env.u hz]
    · rw [if_neg h2]

/-- Witness for C10 at `μ = σ = 1`, `t = 5` (`z = 4 ≥ 3.719`) and a
concrete normal-model event evaluated at that elapsed time. -/
theorem normal_upper_cutoff_witness :
    z_table_search (mkRat 4 1) = none ∧
    normal_hazard 1 1 5 0 = false ∧
    is_active
      { fault := "f", state_trans := false, a_model := EVENT_AMOD_RECUR,
        p_model := EVENT_PMOD_NORM, mttf := 1, thrld := 0, eff_s := -1,
        eff_e := -1, sd := 1, shape := 1, r_range := 1,
        r_w_type := EVENT_RAND_FIXED, udf1 := "", udf2 := "", udf3 := "",
        udd := none }
      (initEventState 0) 0 0 { now := 5, u := 0, roff := 0 } =
        .ok (false, initEventState 0) :=
  ⟨normal_upper_cutoff.1 (mkRat 4 1) (by decide),
   normal_upper_cutoff.2.1 1 1 5 0 (by decide) (by decide) (by decide),
   normal_upper_cutoff.2.2 _ (initEventState 0) 0 0 _ rfl (by decide) (by decide)
     (by decide)⟩

/-! ### `is_active` gate properties -/

/-- C4.  Whatever the probability model, if the elapsed time since the last
firing is strictly below the event's threshold, `is_active` returns false
(and leaves the event state untouched). -/
theorem threshold_gate_blocks (cfg : EventConfig) (st : EventState)
    (alive last : ℤ) (env : Env) (h : env.now - last < cfg.thrld) :
    is_active cfg st alive last env = .ok (false, st) := by
  unfold is_active
  by_cases h1 : st.executed = true ∧ is_singular_event cfg = true
  · rw [if_pos h1]
  · rw [if_neg h1, if_neg (fun hc => absurd hc.2 (not_le.mpr h))]

/-- Witness for C4: an exponential event with threshold 5 probed 1 second
after its last firing. -/
theorem threshold_gate_blocks_witness :
    (1 : ℤ) - 0 < expThCfg.thrld ∧
    is_active expThCfg (initEventState 0) 0 0 { now := 1, u := 0, roff := 0 } =
      .ok (false, initEventState 0) :=
  ⟨by decide,
   threshold_gate_blocks expThCfg (initEventState 0) 0 0
     { now := 1, u := 0, roff := 0 } (by decide)⟩

/-- C5.  With `effective_start ≥ 0`, `is_active` returns false whenever the
component's elapsed life is below `effective_start`, or `effective_end ≠ −1`
and the elapsed life is above `effective_end`; and with
`effective_start = −1` the effective-window gate is a no-op — the decision
does not depend on `effective_end` at all, and the event stays eligible (a
deterministic event past its threshold still fires) at every elapsed life. -/
theorem effective_window_gate :
    (∀ (cfg : EventConfig) (st : EventState) (alive last : ℤ) (env : Env),
      0 ≤ cfg.eff_s → env.now - alive < cfg.eff_s →
        is_active cfg st alive last env = .ok (false, st)) ∧
    (∀ (cfg : EventConfig) (st : EventState) (alive last : ℤ) (env : Env),
      0 ≤ cfg.eff_s → cfg.eff_e ≠ -1 → cfg.eff_e < env.now - alive →
        is_active cfg st alive last env = .ok (false, st)) ∧
    (∀ (cfg : EventConfig) (st : EventState) (alive last : ℤ) (env : Env)
        (e1 e2 : ℤ),
      is_active { cfg with eff_s := -1, eff_e := e1 } st alive last env =
        is_active { cfg with eff_s := -1, eff_e := e2 } st alive last env) ∧
    (∀ (cfg : EventConfig) (st : EventState) (alive last : ℤ) (env : Env),
      cfg.p_model = EVENT_PMOD_DETER →
      ¬(st.executed = true ∧ is_singular_event cfg = true) →
      cfg.eff_s = -1 → cfg.thrld ≤ env.now - last →
        is_active cfg st alive last env = .ok (true, st)) := by
  refine ⟨?_, ?_, ?_, ?_⟩
  · intro cfg st alive last env hs hlt
    unfold is_active
    by_cases h1 : st.executed = true ∧ is_singular_event cfg = true
    · rw [if_pos h1]
    · rw [if_neg h1, if_neg]
      rintro ⟨heff, -⟩
      exact absurd (heff (by omega)).1 (not_le.mpr hlt)
  · intro cfg st alive last env hs he hgt
    unfold is_active
    by_cases h1 : st.executed = true ∧ is_singular_event cfg = true
    · rw [if_pos h1]
    · rw [if_neg h1, if_neg]
      rintro ⟨heff, -⟩
      rcases (heff (by omega)).2 with h2 | h2
      · exact he h2
      · exact absurd h2 (not_le.mpr hgt)
  · intro cfg st alive last env e1 e2
    unfold is_active
    simp only [is_singular_event, gt_iff_lt, lt_self_iff_false, false_implies,
      true_and]
  · intro cfg st alive last env hp h1 heffs hthr
    unfold is_active
    rw [if_neg h1,
      if_pos ⟨fun hgt => absurd hgt (by rw [heffs]; decide), hthr⟩, if_pos hp]

/-- Witness for C5: a deterministic event with `effective_start = 2`,
`effective_end = 5`, probed at elapsed life 1 (too early) and 7 (too late);
and the gate-as-no-op equality at two different `effective_end` values. -/
theorem effective_window_gate_witness :
    is_active { detCfg with eff_s := 2, eff_e := 5 } (initEventState 0) 0 0
        { now := 1, u := 0, roff := 0 } = .ok (false, initEventState 0) ∧
    is_active { detCfg with eff_s := 2, eff_e := 5 } (initEventState 0) 0 0
        { now := 7, u := 0, roff := 0 } = .ok (false, initEventState 0) ∧
    is_active { detCfg with eff_s := -1, eff_e := 3 } (initEventState 0) 0 0
        { now := 1, u := 0, roff := 0 } =
      is_active { detCfg with eff_s := -1, eff_e := 8 } (initEventState 0) 0 0
        { now := 1, u := 0, roff := 0 } ∧
    is_active { detCfg with eff_e := 3 } (initEventState 0) 0 0
        { now := 100, u := 0, roff := 0 } = .ok (true, initEventState 0) :=
  ⟨effective_window_gate.1 { detCfg with eff_s := 2, eff_e := 5 }
      (initEventState 0) 0 0 { now := 1, u := 0, roff := 0 } (by decide) (by decide),
   effective_window_gate.2.1 { detCfg with eff_s := 2, eff_e := 5 }
      (initEventState 0) 0 0 { now := 7, u := 0, roff := 0 } (by decide) (by decide)
      (by decide),
   effective_window_gate.2.2.1 detCfg (initEventState 0) 0 0
      { now := 1, u := 0, roff := 0 } 3 8,
   effective_window_gate.2.2.2 { detCfg with eff_e := 3 } (initEventState 0) 0 0
      { now := 100, u := 0, roff := 0 } rfl (by decide) rfl (by decide)⟩

/-! ### The random model's unbound name -/

/-- C9.  For a `random`-model event, whenever `is_active` reaches the arming
branch (gates passed, no fire time armed, `now` past `window_end`), the
window-type comparison evaluates the unbound name `SystemConfigFile` and
raises `NameError` — for the `fixed` and the `sliding` window type alike;
and from an unarmed state a `random`-model event can never return true (nor
arm itself: every non-raising call leaves the fire time unarmed). -/
theorem random_model_name_error :
    (∀ (cfg : EventConfig) (st : EventState) (alive last : ℤ) (env : Env),
      cfg.p_model = EVENT_PMOD_RANDOM →
      (cfg.r_w_type = EVENT_RAND_FIXED ∨ cfg.r_w_type = EVENT_RAND_SLIDE) →
      st.executed = false →
      (cfg.eff_s > -1 →
        (cfg.eff_s ≤ env.now - alive ∧
          (cfg.eff_e = -1 ∨ env.now - alive ≤ cfg.eff_e))) →
      cfg.thrld ≤ env.now - last →
      st.random_time_set = false → st.window_end < env.now →
        is_active cfg st alive last env = .error ()) ∧
    (∀ (cfg : EventConfig) (st : EventState) (alive last : ℤ) (env : Env)
        (b : Bool) (st1 : EventState),
      cfg.p_model = EVENT_PMOD_RANDOM → st.random_time_set = false →
      is_active cfg st alive last env = .ok (b, st1) →
        b = false ∧ st1.random_time_set = false) := by
  constructor
  · intro cfg st alive last env hp _ hexec heff hthr hset hwin
    unfold is_active
    rw [if_neg (fun hc => by rw [hexec] at hc; exact absurd hc.1 (by decide)),
      if_pos ⟨heff, hthr⟩, if_neg (by rw [hp]; decide), if_neg (by rw [hp]; decide),
      if_neg (by rw [hp]; decide), if_neg (by rw [hp]; decide), if_pos hp,
      if_pos ⟨hset, hwin⟩]
  · intro cfg st alive last env b st1 hp hset h
    unfold is_active at h
    by_cases h1 : st.executed = true ∧ is_singular_event cfg = true
    · rw [if_pos h1] at h
      simp only [Except.ok.injEq, Prod.mk.injEq] at h
      exact ⟨h.1.symm, h.2 ▸ hset⟩
    · rw [if_neg h1] at h
      by_cases h2 : (cfg.eff_s > -1 →
          (cfg.eff_s ≤ env.now - alive ∧
            (cfg.eff_e = -1 ∨ env.now - alive ≤ cfg.eff_e))) ∧
          cfg.thrld ≤ env.now - last
      · rw [if_pos h2, if_neg (by rw [hp]; decide), if_neg (by rw [hp]; decide),
          if_neg (by rw [hp]; decide), if_neg (by rw [hp]; decide),
          if_pos hp] at h
        by_cases h3 : st.random_time_set = false ∧ st.window_end < env.now
        · rw [if_pos h3] at h
          exact absurd h (by simp)
        · rw [if_neg h3,
            if_neg (fun hc => by rw [hset] at hc; exact absurd hc.1 (by decide))] at h
          simp only [Except.ok.injEq, Prod.mk.injEq] at h
          exact ⟨h.1.symm, h.2 ▸ hset⟩
      · rw [if_neg h2] at h
        simp only [Except.ok.injEq, Prod.mk.injEq] at h
        exact ⟨h.1.symm, h.2 ▸ hset⟩

/-- Witness for C9: a sliding-window random event at its first
past-window-end tick raises, and a fixed-window one returns false (with the
fire time still unarmed) one second before its window closes. -/
theorem random_model_name_error_witness :
    is_active { randCfg with r_w_type := EVENT_RAND_SLIDE } (initEventState 0)
        0 0 { now := 5, u := 0, roff := 3 } = .error () ∧
    (false = false ∧ (initEventState 0).random_time_set = false) :=
  ⟨random_model_name_error.1 { randCfg with r_w_type := EVENT_RAND_SLIDE }
      (initEventState 0) 0 0 { now := 5, u := 0, roff := 3 } rfl (Or.inr rfl)
      rfl (by decide) (by decide) rfl (by decide),
   random_model_name_error.2 { randCfg with r_w_type := EVENT_RAND_SLIDE }
      (initEventState 0) 0 (-1) { now := 0, u := 0, roff := 0 } false
      (initEventState 0) rfl rfl (by decide)⟩

/-- C1 (the code's side).  A `random`/`fixed` event never gets to schedule a
firing: at the very first tick whose `now` exceeds the initial `window_end`
(all gates passed), `is_active` raises the `SystemConfigFile` `NameError`,
and `checkpoint` propagates it, killing the scheduler thread — so no two
firings, let alone `[threshold, 2·random_range]`-spaced ones, ever occur. -/
theorem random_fixed_arming_name_error :
    is_active randCfg (initEventState 0) 0 0 { now := 5, u := 0, roff := 3 } =
      .error () ∧
    checkpoint (sampleComp randCfg) { now := 5, u := 0, roff := 3 } =
      .error () := by
  constructor
  · decide
  · decide

/-! ### `checkpoint` structure lemmas -/

/-- An event whose `singular` gate is shut: already executed and singular
means `is_active` returns false without touching anything. -/
lemma is_active_singular_executed (cfg : EventConfig) (st : EventState)
    (alive last : ℤ) (env : Env) (hs : is_singular_event cfg = true)
    (he : st.executed = true) :
    is_active cfg st alive last env = .ok (false, st) := by
  unfold is_active
  rw [if_pos ⟨he, hs⟩]

/-- `is_active` never changes the `_executed` member (only `checkpoint`'s
`set_executed` does). -/
lemma is_active_executed_eq (cfg : EventConfig) (st : EventState)
    (alive last : ℤ) (env : Env) (bl : Bool) (st1 : EventState)
    (h : is_active cfg st alive last env = .ok (bl, st1)) :
    st1.executed = st.executed := by
  simp only [is_active] at h
  repeat' split at h
  all_goals
    first
      | exact Except.noConfusion h
      | (simp only [Except.ok.injEq, Prod.mk.injEq] at h
         rw [← h.2])

/-- Unfolding a successful run of the `checkpoint` comprehension: it returns
one `(config, fired, state)` triple per bucket entry, each produced by
`is_active` on that entry with the bucket-selection-time `last_event_time`. -/
lemma evalBucket_ok (life last : ℤ) (env : Env) :
    ∀ (l : List (EventConfig × EventState))
      (res : List (EventConfig × Bool × EventState)),
      evalBucket life last env l = .ok res →
      res.length = l.length ∧
      ∀ (i : ℕ) (cfg : EventConfig) (st : EventState), l[i]? = some (cfg, st) →
        ∃ (bl : Bool) (st1 : EventState),
          is_active cfg st life last env = .ok (bl, st1) ∧
          res[i]? = some (cfg, bl, st1) := by
  intro l
  induction l with
  | nil =>
    intro res h
    simp only [evalBucket, Except.ok.injEq] at h
    subst h
    exact ⟨rfl, fun i cfg st hi => by simp at hi⟩
  | cons p rest ih =>
    intro res h
    obtain ⟨cfg0, st0⟩ := p
    cases hia : is_active cfg0 st0 life last env with
    | error e =>
      simp only [evalBucket, hia] at h
      exact Except.noConfusion h
    | ok v =>
      obtain ⟨b0, st1⟩ := v
      cases hr : evalBucket life last env rest with
      | error e =>
        simp only [evalBucket, hia, hr] at h
        exact Except.noConfusion h
      | ok tail =>
        simp only [evalBucket, hia, hr, Except.ok.injEq] at h
        subst h
        obtain ⟨hlen, hget⟩ := ih tail hr
        refine ⟨by simp [hlen], ?_⟩
        intro i cfg st hi
        cases i with
        | zero =>
          simp only [List.getElem?_cons_zero, Option.some_inj] at hi
          cases hi
          exact ⟨b0, st1, hia, by simp⟩
        | succ n =>
          simp only [List.getElem?_cons_succ] at hi
          obtain ⟨bl, st2, h1, h2⟩ := hget n cfg st hi
          exact ⟨bl, st2, h1, by simpa using h2⟩

/-- Eliminating a successful `checkpoint`: the returned flags and updated
component in terms of the evaluated bucket. -/
lemma checkpoint_ok_elim (c : Comp) (env : Env) (flags : List Bool) (c1 : Comp)
    (h : checkpoint c env = .ok (flags, c1)) :
    ∃ res,
      evalBucket c.life_start_time c.last_event_time env (bucketOf c.operable c) =
        .ok res ∧
      flags = res.map (fun r => r.2.1) ∧
      c1 = { operable := res.foldl
               (fun a r => if r.2.1 = true ∧ r.1.state_trans = true then !a else a)
               c.operable,
             ops := if c.operable then res.map commitEvent else c.ops,
             nonops := if c.operable then c.nonops else res.map commitEvent,
             life_start_time := c.life_start_time,
             last_event_time :=
               if (res.map (fun r => r.2.1)).any (fun x => x) then env.now
               else c.last_event_time } := by
  unfold checkpoint at h
  cases hres : evalBucket c.life_start_time c.last_event_time env
      (bucketOf c.operable c) with
  | error e => rw [hres] at h; exact Except.noConfusion h
  | ok res =>
    rw [hres] at h
    simp only [Except.ok.injEq, Prod.mk.injEq] at h
    exact ⟨res, rfl, h.1.symm, h.2.symm⟩

/-- Stepping the event at index `i` of the component's current bucket
through one `checkpoint`: its flag is its `is_active` outcome against the
pre-tick `last_event_time`, and its post-tick state is the `is_active`
output state, with `executed` forced when it fired. -/
lemma checkpoint_get_current (c : Comp) (env : Env) (flags : List Bool)
    (c1 : Comp) (b : Bool) (i : ℕ) (cfg : EventConfig) (st : EventState)
    (h : checkpoint c env = .ok (flags, c1)) (hb : c.operable = b)
    (hi : (bucketOf b c)[i]? = some (cfg, st)) :
    ∃ (bl : Bool) (st1 : EventState),
      is_active cfg st c.life_start_time c.last_event_time env = .ok (bl, st1) ∧
      flags[i]? = some bl ∧
      (bucketOf b c1)[i]? =
        some (cfg, if bl then { st1 with executed := true } else st1) := by
  obtain ⟨res, hres, hflags, hc1⟩ := checkpoint_ok_elim c env flags c1 h
  rw [hb] at hres
  obtain ⟨hlen, hget⟩ := evalBucket_ok c.life_start_time c.last_event_time env
    (bucketOf b c) res hres
  obtain ⟨bl, st1, hia, hresi⟩ := hget i cfg st hi
  refine ⟨bl, st1, hia, ?_, ?_⟩
  · rw [hflags, List.getElem?_map, hresi]
    rfl
  · subst hc1
    have hbkt : bucketOf b
        { operable := res.foldl
            (fun a r => if r.2.1 = true ∧ r.1.state_trans = true then !a else a)
            c.operable,
          ops := if c.operable then res.map commitEvent else c.ops,
          nonops := if c.operable then c.nonops else res.map commitEvent,
          life_start_time := c.life_start_time,
          last_event_time :=
            if (res.map (fun r => r.2.1)).any (fun x => x) then env.now
            else c.last_event_time } = res.map commitEvent := by
      cases b
      · simp [bucketOf, hb]
      · simp [bucketOf, hb]
    rw [hbkt, List.getElem?_map, hresi]
    rfl

/-- A `checkpoint` never touches the bucket of the state the component is
not in. -/
lemma checkpoint_get_other (c : Comp) (env : Env) (flags : List Bool)
    (c1 : Comp) (b : Bool) (h : checkpoint c env = .ok (flags, c1))
    (hb : ¬c.operable = b) : bucketOf b c1 = bucketOf b c := by
  obtain ⟨res, hres, hflags, hc1⟩ := checkpoint_ok_elim c env flags c1 h
  subst hc1
  cases b
  · have hop : c.operable = true := by
      cases hcop : c.operable
      · exact absurd hcop hb
      · rfl
    simp [bucketOf, hop]
  · have hop : c.operable = false := by
      cases hcop : c.operable
      · rfl
      · exact absurd hcop hb
    simp [bucketOf, hop]

/-- Once a singular event has its `executed` flag set, it fires at no
further tick of any run. -/
lemma traceFires_zero_of_executed (b : Bool) (i : ℕ) (cfg : EventConfig)
    (hs : is_singular_event cfg = true) :
    ∀ (envs : List Env) (c : Comp) (st : EventState),
      (bucketOf b c)[i]? = some (cfg, st) → st.executed = true →
      traceFires b i c envs = 0 := by
  intro envs
  induction envs with
  | nil => intro c st _ _; rfl
  | cons env rest ih =>
    intro c st hi he
    cases hcp : checkpoint c env with
    | error e => simp [traceFires, hcp]
    | ok v =>
      obtain ⟨flags, c1⟩ := v
      simp only [traceFires, hcp]
      by_cases hb : c.operable = b
      · obtain ⟨bl, st1, hia, hfl, hi1⟩ :=
          checkpoint_get_current c env flags c1 b i cfg st hcp hb hi
        rw [is_active_singular_executed cfg st _ _ _ hs he] at hia
        simp only [Except.ok.injEq, Prod.mk.injEq] at hia
        obtain ⟨hbl, hst1⟩ := hia
        rw [if_neg, Nat.zero_add]
        · apply ih c1 st1
          · rw [hi1, ← hbl]
            simp [← hst1]
          · rw [← hst1]; exact he
        · rintro ⟨-, hflag⟩
          rw [List.getD_eq_getElem?_getD, hfl, ← hbl] at hflag
          exact absurd hflag (by decide)
      · have hbkt := checkpoint_get_other c env flags c1 b hcp hb
        rw [if_neg (fun hc => hb hc.1), Nat.zero_add]
        exact ih c1 st (hbkt ▸ hi) he

/-- C2.  A `singular` event fires at most once over any run of scheduler
ticks: `checkpoint` marks a fired event executed right after the tick's
evaluation pass, and the executed-singular gate at the top of `is_active`
then returns false at every later tick. -/
theorem singular_event_fires_at_most_once (b : Bool) (i : ℕ) (cfg : EventConfig)
    (hs : cfg.a_model = EVENT_AMOD_SINGLE) :
    ∀ (envs : List Env) (c : Comp) (st : EventState),
      (bucketOf b c)[i]? = some (cfg, st) → traceFires b i c envs ≤ 1 := by
  have hsing : is_singular_event cfg = true := by simp [is_singular_event, hs]
  intro envs
  induction envs with
  | nil => intro c st _; exact Nat.zero_le 1
  | cons env rest ih =>
    intro c st hi
    cases hcp : checkpoint c env with
    | error e => simp [traceFires, hcp]
    | ok v =>
      obtain ⟨flags, c1⟩ := v
      simp only [traceFires, hcp]
      by_cases hb : c.operable = b
      · obtain ⟨bl, st1, hia, hfl, hi1⟩ :=
          checkpoint_get_current c env flags c1 b i cfg st hcp hb hi
        cases hbl : bl
        · rw [if_neg, Nat.zero_add]
          · exact ih c1 st1 (by rw [hi1, hbl]; simp)
          · rintro ⟨-, hflag⟩
            rw [List.getD_eq_getElem?_getD, hfl, hbl] at hflag
            exact absurd hflag (by decide)
        · have htail : traceFires b i c1 rest = 0 := by
            apply traceFires_zero_of_executed b i cfg hsing rest c1
              { st1 with executed := true }
            · rw [hi1, hbl]; simp
            · rfl
          rw [htail]
          split
          · exact le_refl 1
          · exact Nat.zero_le 1
      · have hbkt := checkpoint_get_other c env flags c1 b hcp hb
        rw [if_neg (fun hc => hb hc.1), Nat.zero_add]
        exact ih c1 st (hbkt ▸ hi)

/-- Witness for C2: a singular deterministic event checkpointed three times
fires at most once. -/
theorem singular_event_fires_at_most_once_witness :
    traceFires true 0 (sampleComp singCfg)
      [{ now := 1, u := 0, roff := 0 }, { now := 2, u := 0, roff := 0 },
       { now := 3, u := 0, roff := 0 }] ≤ 1 :=
  singular_event_fires_at_most_once true 0 singCfg rfl _ (sampleComp singCfg)
    (initEventState 0) (by decide)

/-- C3.  In one `checkpoint` call: every event of the (pre-toggle) current
bucket is evaluated by `is_active` against the same pre-update
`last_event_time`; `last_event_time` is advanced (to the tick's clock
reading, once per fired event, which on the tick's single clock reading
coalesces) only after the evaluation pass, exactly when some event fired;
and the returned flags describe the bucket selected *before* any state
toggle of this tick, so events of the old state that fired are still
returned even when a state-transition event fires. -/
theorem checkpoint_uniform_last_event_time (c : Comp) (env : Env)
    (flags : List Bool) (c1 : Comp) (h : checkpoint c env = .ok (flags, c1)) :
    (∀ (i : ℕ) (cfg : EventConfig) (st : EventState),
      (bucketOf c.operable c)[i]? = some (cfg, st) →
        ∃ st1, is_active cfg st c.life_start_time c.last_event_time env =
          .ok (flags.getD i false, st1)) ∧
    flags.length = (bucketOf c.operable c).length ∧
    c1.last_event_time =
      (if flags.any (fun x => x) then env.now else c.last_event_time) ∧
    c1.life_start_time = c.life_start_time := by
  obtain ⟨res, hres, hflags, hc1⟩ := checkpoint_ok_elim c env flags c1 h
  obtain ⟨hlen, hget⟩ := evalBucket_ok c.life_start_time c.last_event_time env
    (bucketOf c.operable c) res hres
  subst hc1
  subst hflags
  refine ⟨?_, by simp [hlen], rfl, rfl⟩
  intro i cfg st hi
  obtain ⟨bl, st1, hia, hresi⟩ := hget i cfg st hi
  refine ⟨st1, ?_⟩
  rw [List.getD_eq_getElem?_getD, List.getElem?_map, hresi]
  exact hia

/-- Witness for C3: a concrete one-event component checkpointed at instant
5. -/
theorem checkpoint_uniform_last_event_time_witness :
    ∃ (flags : List Bool) (c1 : Comp),
      checkpoint (sampleComp detCfg) { now := 5, u := 0, roff := 0 } =
        .ok (flags, c1) ∧
      (∀ (i : ℕ) (cfg : EventConfig) (st : EventState),
        (bucketOf (sampleComp detCfg).operable (sampleComp detCfg))[i]? =
          some (cfg, st) →
          ∃ st1, is_active cfg st (sampleComp detCfg).life_start_time
            (sampleComp detCfg).last_event_time { now := 5, u := 0, roff := 0 } =
              .ok (flags.getD i false, st1)) ∧
      flags.length =
        (bucketOf (sampleComp detCfg).operable (sampleComp detCfg)).length ∧
      c1.last_event_time =
        (if flags.any (fun x => x) then ({ now := 5, u := 0, roff := 0 } : Env).now
         else (sampleComp detCfg).last_event_time) ∧
      c1.life_start_time = (sampleComp detCfg).life_start_time :=
  ⟨_, _, rfl,
    checkpoint_uniform_last_event_time (sampleComp detCfg)
      { now := 5, u := 0, roff := 0 } _ _ rfl⟩

/-! ### Scheduler dispatch and configuration validation -/

/-- C7 (the code's side).  A fired event whose fault name is absent from the
module is logged and skipped, later firings proceed, and a resolved name is
cached so the module is never consulted again (the cached entry answers even
against an empty module).  But a fault name bound to a *non-callable* module
attribute raises the bare `AttributeError()` whose empty `args` makes the
handler's `err.args[0]` raise `IndexError`, crashing the scheduler thread
instead of skipping. -/
theorem scheduler_noncallable_crash :
    process_fired false sampleModule [] ["missing", "good", "good"] =
      .ok ([.spawned "good", .spawned "good"], [("good", "good")]) ∧
    get_function sampleModule [] "bad" = .error .noArgs ∧
    process_fired false sampleModule [] ["bad", "good"] = .error () ∧
    get_function [] [("good", "good")] "good" =
      .ok ("good", [("good", "good")]) := by
  refine ⟨?_, ?_, ?_, ?_⟩ <;> decide

/-- C8 (the code's side).  An otherwise-valid event definition that omits
`p_model` is built with the documented default `""` — and is then rejected
by `_validate_event_model`, because the empty string is outside the
probability-model enumeration, so the load raises `ValueError` instead of
succeeding. -/
theorem p_model_default_rejected :
    build_model ejNoPModel =
      .ok { fault := "kill", state_trans := false, a_model := EVENT_AMOD_RECUR,
            p_model := "", mttf := 1, thrld := 0, eff_s := -1, eff_e := -1,
            sd := 1, shape := 1, r_range := 1, r_w_type := EVENT_RAND_FIXED,
            udf1 := "", udf2 := "", udf3 := "", udd := none } ∧
    get_model_for_event ejNoPModel = .error "Invalid p_model value" := by
  constructor
  · decide
  · decide
